import Mathlib

/-!
Shallow embedding of the ai-research-assistant two-stage search pipeline.

The repository drives everything through asynchronous calls to an LLM
backend.  Each outbound call is modelled by an oracle parameter giving the
outcome the backend would return (a parsed response envelope, or the thrown
value), and the JavaScript builtin JSON.parse is modelled by a parameter
`parse : String → Option Json` (none = the builtin throws).  Everything
else is translated directly from the TypeScript / JavaScript source.
-/

/-- Remove leading and trailing whitespace from a list of characters. -/
def trimChars (l : List Char) : List Char :=
  ((l.dropWhile Char.isWhitespace).reverse.dropWhile Char.isWhitespace).reverse

/-- The JavaScript String.prototype.trim operation, defined over the
character data so that it reduces in the kernel. -/
def jsTrim (s : String) : String := { data := trimChars s.data }

/-- JSON values, as produced by JSON.parse and carried in response bodies.
Numbers are modelled as integers (no claim depends on fractional values). -/
inductive Json where
  | null : Json
  | bool : Bool → Json
  | num : Int → Json
  | str : String → Json
  | arr : List Json → Json
  | obj : List (String × Json) → Json

/-- JavaScript truthiness of a JSON value. -/
def Json.truthy : Json → Bool
  | .null => false
  | .bool b => b
  | .num n => decide (n ≠ 0)
  | .str s => decide (s ≠ "")
  | .arr _ => true
  | .obj _ => true

/-- Optional-chaining property access `v?.k` on a JSON value. -/
def Json.getProp : Json → String → Option Json
  | .obj fields, k => (fields.find? (fun p => p.1 == k)).map Prod.snd
  | _, _ => none

/-- Optional-chaining index access `v?.[i]` on a JSON value. -/
def Json.getIdx : Json → Nat → Option Json
  | .arr xs, i => xs[i]?
  | _, _ => none

/-- Whether a JSON value is an array (JavaScript Array.isArray). -/
def Json.isArr : Json → Bool
  | .arr _ => true
  | _ => false

/-- The nested access `v?.candidates?.[0]?.content?.parts?.[0]?.text`
shared by the proxy worker and both proxy-client normalizers. -/
def candidatesText (data : Json) : Option Json :=
  ((((((data.getProp "candidates").bind (fun c => c.getIdx 0)).bind
      (fun c => c.getProp "content")).bind
      (fun c => c.getProp "parts")).bind
      (fun p => p.getIdx 0)).bind
      (fun q => q.getProp "text"))

/-- A thrown JavaScript value: either an Error instance carrying its
message, or any non-Error value (carrying a descriptive tag). -/
inductive JSValue where
  | error : String → JSValue
  | other : String → JSValue

/-- The TypeError thrown by calling .trim() on a non-string value. -/
def jsTrimTypeError : JSValue := .error "TypeError: trim is not a function"

/-- The SyntaxError thrown by JSON.parse on malformed input. -/
def jsonSyntaxError : JSValue := .error "SyntaxError: JSON parse failed"

/-- JavaScript truthiness of a possibly-undefined string. -/
def truthyStr : Option String → Bool
  | none => false
  | some s => decide (s ≠ "")

/-- One safety rating attached to prompt feedback. -/
structure SafetyRating where
  blocked : Bool
  category : String

/-- The promptFeedback metadata of a generateContent response. -/
structure PromptFeedback where
  blockReason : Option String
  safetyRatings : Option (List SafetyRating)

/-- A generateContent response: feedback metadata plus the aggregated
text payload (undefined when the model produced none). -/
structure GenResponse where
  promptFeedback : Option PromptFeedback
  text : Option String

/-- The shared GoogleGenAI client value, holding the credential. -/
structure GoogleGenAI where
  apiKey : String

/-- The catch handler pattern of both searchPapers orchestrators: rethrow
an Error instance unchanged, wrap any other thrown value. -/
def rethrowOrWrap (wrapMessage : String) : JSValue → JSValue
  | .error m => .error m
  | .other _ => .error wrapMessage

namespace PaperService

/-! Embedding of src/services/paperService.ts (direct-client variant). -/

/-- Message of the configuration error thrown by getAi when the API key is
unavailable (text abridged from the three-sentence source message; the
first sentence is kept verbatim). -/
def apiKeyErrorMessage : String :=
  "Configuration Error: The API_KEY is not available. \n\n" ++
    "The application cannot function without the API key."

/-- getAi: reads process.env.API_KEY (the parameter `env`; none models an
undefined variable or an inaccessible process object) and throws the
configuration error when the key is undefined or empty. -/
def getAi (env : Option String) : Except JSValue GoogleGenAI :=
  match env with
  | none => .error (.error apiKeyErrorMessage)
  | some k => if k = "" then .error (.error apiKeyErrorMessage) else .ok ⟨k⟩

/-- The joined list of blocked safety categories, with the N/A fallback
when safetyRatings is undefined or no rating is blocked. -/
def blockedCategories (ratings : Option (List SafetyRating)) : String :=
  match ratings with
  | none => "N/A"
  | some rs =>
    let joined := String.intercalate ", "
      ((rs.filter (fun r => r.blocked)).map (fun r => r.category))
    if joined = "" then "N/A" else joined

/-- The message of the safety-block error thrown by stage 1. -/
def safetyBlockMessage (reason : String)
    (ratings : Option (List SafetyRating)) : String :=
  "Search failed: The query was blocked for safety reasons.\nReason: " ++
    reason ++ ".\nCategories: " ++ blockedCategories ratings ++ "."

/-- The promptFeedback of a response when it carries a truthy blockReason
(the condition of the safety-block branch), and none otherwise. -/
def blockedFeedback (r : GenResponse) : Option PromptFeedback :=
  match r.promptFeedback with
  | some pf => if truthyStr pf.blockReason then some pf else none
  | none => none

/-- Stage 1 (getRawPaperData): the generateContent outcome is the oracle
parameter `resp`.  A thrown value is re-thrown unchanged by the stage
catch; a blocked response raises the safety error; empty or undefined
text yields the empty-string sentinel. -/
def getRawPaperData (resp : Except JSValue GenResponse) : Except JSValue String :=
  match resp with
  | .error e => .error e
  | .ok r =>
    match blockedFeedback r with
    | some pf =>
      .error (.error (safetyBlockMessage (pf.blockReason.getD "") pf.safetyRatings))
    | none =>
      let text := jsTrim (r.text.getD "")
      if text = "" then .ok "" else .ok text

/-- Message of the error thrown by the stage-2 catch handler. -/
def formatFailureMessage : String :=
  "The AI failed to format the search results. This may be a temporary issue."

/-- Stage 2 (formatPaperData): blank input returns the empty array without
a model call; otherwise the oracle `resp` gives the generateContent
outcome and `parse` models JSON.parse.  The parsed value is returned with
no validation (the source casts it to Paper[]).  The Bool records whether
the model call was made. -/
def formatPaperData (parse : String → Option Json)
    (resp : Except JSValue GenResponse) (rawData : String) :
    Except JSValue Json × Bool :=
  if jsTrim rawData = "" then
    (.ok (Json.arr []), false)
  else
    let attempt : Except JSValue Json :=
      match resp with
      | .error e => .error e
      | .ok r =>
        match r.text with
        | none => .error jsTrimTypeError
        | some t =>
          match parse (jsTrim t) with
          | none => .error jsonSyntaxError
          | some j => .ok j
    match attempt with
    | .error _ => (.error (.error formatFailureMessage), true)
    | .ok j => (.ok j, true)

/-- Message of the catch-all error for non-Error thrown values. -/
def unexpectedErrorMessage : String :=
  "An unexpected error occurred during the paper search."

/-- The searchPapers orchestrator.  `stage1` and `stage2` are the oracle
outcomes of the two generateContent calls; the Nat counts how many model
calls were made. -/
def searchPapers (env : Option String) (parse : String → Option Json)
    (stage1 stage2 : Except JSValue GenResponse) : Except JSValue Json × Nat :=
  match getAi env with
  | .error e => (.error e, 0)
  | .ok _ =>
    match getRawPaperData stage1 with
    | .error e => (.error (rethrowOrWrap unexpectedErrorMessage e), 1)
    | .ok rawData =>
      match formatPaperData parse stage2 rawData with
      | (.error e, invoked) =>
        (.error (rethrowOrWrap unexpectedErrorMessage e),
          1 + (if invoked then 1 else 0))
      | (.ok papers, invoked) => (.ok papers, 1 + (if invoked then 1 else 0))

end PaperService

namespace GeminiService

/-! Embedding of src/services/geminiService.ts (direct-client transforms). -/

/-- Message of the configuration error thrown by getClient. -/
def configErrorMessage : String :=
  "Configuration Error: The API_KEY environment variable is not set. " ++
    "Please ensure it is configured in your environment. " ++
    "The application cannot function without it."

/-- getClient: reads process.env.GEMINI_API_KEY (parameter `env`) and
throws the configuration error when it is undefined or empty. -/
def getClient (env : Option String) : Except JSValue GoogleGenAI :=
  match env with
  | none => .error (.error configErrorMessage)
  | some k => if k = "" then .error (.error configErrorMessage) else .ok ⟨k⟩

/-- The shared body of every geminiService transform: acquire the client,
make one generateContent call (oracle `resp`), normalize via
response.text.trim(), then JSON.parse the result. -/
def transformAttempt (env : Option String) (parse : String → Option Json)
    (resp : Except JSValue GenResponse) : Except JSValue Json :=
  match getClient env with
  | .error e => .error e
  | .ok _ =>
    match resp with
    | .error e => .error e
    | .ok r =>
      match r.text with
      | none => .error jsTrimTypeError
      | some t =>
        match parse (jsTrim t) with
        | none => .error jsonSyntaxError
        | some j => .ok j

/-- generateSuggestions: any failure is swallowed and the empty array is
returned.  The Bool records whether the model call was made. -/
def generateSuggestions (env : Option String) (parse : String → Option Json)
    (resp : Except JSValue GenResponse) : Except JSValue Json × Bool :=
  (match transformAttempt env parse resp with
   | .error _ => .ok (Json.arr [])
   | .ok j => .ok j,
   (getClient env).isOk)

/-- Message of the fatal error thrown by the generateComparison catch. -/
def comparisonFailureMessage : String :=
  "Failed to generate the paper comparison due to an AI processing error."

/-- Message of the fatal error thrown by the generateKnowledgeGraph catch. -/
def knowledgeGraphFailureMessage : String :=
  "Failed to generate the knowledge graph due to an AI processing error."

/-- Message of the fatal error thrown by the generateSinglePaperAnalysis catch. -/
def analysisFailureMessage : String :=
  "Failed to generate the paper analysis due to an AI processing error."

/-- The shared fatal-transform shape: any failure becomes the fatal error
of that transform.  The Bool records whether the model call was made. -/
def fatalTransform (failureMessage : String) (env : Option String)
    (parse : String → Option Json) (resp : Except JSValue GenResponse) :
    Except JSValue Json × Bool :=
  (match transformAttempt env parse resp with
   | .error _ => .error (.error failureMessage)
   | .ok j => .ok j,
   (getClient env).isOk)

/-- generateComparison (fatal failure policy). -/
def generateComparison : Option String → (String → Option Json) →
    Except JSValue GenResponse → Except JSValue Json × Bool :=
  fatalTransform comparisonFailureMessage

/-- generateKnowledgeGraph (fatal failure policy). -/
def generateKnowledgeGraph : Option String → (String → Option Json) →
    Except JSValue GenResponse → Except JSValue Json × Bool :=
  fatalTransform knowledgeGraphFailureMessage

/-- generateSinglePaperAnalysis (fatal failure policy). -/
def generateSinglePaperAnalysis : Option String → (String → Option Json) →
    Except JSValue GenResponse → Except JSValue Json × Bool :=
  fatalTransform analysisFailureMessage

end GeminiService

/-- The outcome of one proxied request, as observed by callGeminiProxy:
the fetch call rejects, the response is non-2xx (status plus error body
text), response.json() rejects, or a JSON body is obtained. -/
inductive FetchOutcome where
  | netError : JSValue → FetchOutcome
  | httpError : Nat → String → FetchOutcome
  | jsonError : JSValue → FetchOutcome
  | success : Json → FetchOutcome

/-- The first element of the list that is present and truthy, matching a
chain of JavaScript optional accesses joined with the or operator. -/
def firstTruthy : List (Option Json) → Option Json
  | [] => none
  | o :: rest =>
    match o with
    | some v => if v.truthy then some v else firstTruthy rest
    | none => firstTruthy rest

namespace PaperServiceProxy

/-! Embedding of src/unnamed/part_001 (paperService.ts, proxy variant). -/

/-- Message of the empty-output error thrown by the normalizer. -/
def emptyResponseMessage : String := "⚠️ Empty response from Gemini proxy."

/-- Message of the wrapper error thrown by the callGeminiProxy catch. -/
def proxyFailureMessage : String :=
  "Failed to communicate with the Gemini proxy service."

/-- Message of the transport error thrown on a non-2xx proxy response. -/
def statusMessage (status : Nat) (body : String) : String :=
  "Proxy request failed (" ++ toString status ++ "): " ++ body

/-- The normalizer expression: data?.output, else data?.text, else the
nested candidates text, else the empty string. -/
def extractedOutput (data : Json) : Json :=
  (firstTruthy
    [data.getProp "output", data.getProp "text", candidatesText data]).getD
    (Json.str "")

/-- The extraction step of callGeminiProxy: the normalizer expression
followed by the emptiness check on the trimmed value.  A non-string
extracted value makes .trim() throw a TypeError. -/
def extractStep (data : Json) : Except JSValue String :=
  match extractedOutput data with
  | .str s =>
    if jsTrim s = "" then .error (.error emptyResponseMessage)
    else .ok (jsTrim s)
  | _ => .error jsTrimTypeError

/-- callGeminiProxy: transport handling, extraction, and the catch that
wraps every failure into the single proxy-failure error. -/
def callGeminiProxy (o : FetchOutcome) : Except JSValue String :=
  let attempt : Except JSValue String :=
    match o with
    | .netError e => .error e
    | .httpError status body => .error (.error (statusMessage status body))
    | .jsonError e => .error e
    | .success data => extractStep data
  match attempt with
  | .error _ => .error (.error proxyFailureMessage)
  | .ok s => .ok s

/-- Message of the error thrown by the stage-1 catch handler. -/
def stage1FailureMessage : String :=
  "Stage 1 failed: Could not fetch raw academic paper data."

/-- Stage 1 (getRawPaperData): one proxied call; any failure is wrapped
into the stage-1 error, a falsy output yields the empty sentinel. -/
def getRawPaperData (o : FetchOutcome) : Except JSValue String :=
  match callGeminiProxy o with
  | .error _ => .error (.error stage1FailureMessage)
  | .ok output => if output = "" then .ok "" else .ok output

/-- Message of the error thrown on a parseable non-array stage-2 output. -/
def invalidFormatMessage : String :=
  "Invalid format: Expected a JSON array of papers."

/-- Message of the error thrown by the stage-2 catch handler. -/
def stage2FailureMessage : String :=
  "Stage 2 failed: Could not structure paper data correctly."

/-- Stage 2 (formatPaperData): blank input returns the empty array without
a call; otherwise one proxied call, JSON.parse, and an Array.isArray
check; any failure is wrapped into the stage-2 error.  The Bool records
whether the call was made. -/
def formatPaperData (parse : String → Option Json) (o : FetchOutcome)
    (rawData : String) : Except JSValue Json × Bool :=
  if jsTrim rawData = "" then
    (.ok (Json.arr []), false)
  else
    let attempt : Except JSValue Json :=
      match callGeminiProxy o with
      | .error e => .error e
      | .ok output =>
        match parse output with
        | none => .error jsonSyntaxError
        | some (Json.arr xs) => .ok (Json.arr xs)
        | some _ => .error (.error invalidFormatMessage)
    match attempt with
    | .error _ => (.error (.error stage2FailureMessage), true)
    | .ok j => (.ok j, true)

/-- Message of the catch-all error for non-Error thrown values. -/
def unexpectedMessage : String := "Unexpected error in paper search process."

/-- The proxy-variant searchPapers orchestrator, counting proxied calls. -/
def searchPapers (parse : String → Option Json)
    (stage1 stage2 : FetchOutcome) : Except JSValue Json × Nat :=
  match getRawPaperData stage1 with
  | .error e => (.error (rethrowOrWrap unexpectedMessage e), 1)
  | .ok rawData =>
    match formatPaperData parse stage2 rawData with
    | (.error e, invoked) =>
      (.error (rethrowOrWrap unexpectedMessage e),
        1 + (if invoked then 1 else 0))
    | (.ok papers, invoked) => (.ok papers, 1 + (if invoked then 1 else 0))

end PaperServiceProxy

namespace GeminiServiceProxy

/-! Embedding of src/unnamed/part_000 (geminiService.ts, proxy variant). -/

/-- Message of the empty-output error thrown by the normalizer. -/
def emptyResponseMessage : String :=
  "The Gemini proxy returned an empty response. Check prompt or Worker logs."

/-- Message of the wrapper error thrown by the callGeminiProxy catch. -/
def proxyFailureMessage : String :=
  "Gemini proxy request failed. Please try again later."

/-- Message of the transport error thrown on a non-2xx proxy response. -/
def statusMessage (status : Nat) (body : String) : String :=
  "Proxy request failed (Status " ++ toString status ++ "): " ++ body

/-- The extraction step of this variant: data?.output, else the nested
candidates text, else null; a falsy result throws the empty error, and
the surviving value is returned trimmed.  Note: no data?.text shape, and
the emptiness check precedes trimming. -/
def extractStep (data : Json) : Except JSValue String :=
  match firstTruthy [data.getProp "output", candidatesText data] with
  | none => .error (.error emptyResponseMessage)
  | some (Json.str s) => .ok (jsTrim s)
  | some _ => .error jsTrimTypeError

/-- callGeminiProxy: transport handling, extraction, and the catch that
wraps every failure into the single proxy-failure error. -/
def callGeminiProxy (o : FetchOutcome) : Except JSValue String :=
  let attempt : Except JSValue String :=
    match o with
    | .netError e => .error e
    | .httpError status body => .error (.error (statusMessage status body))
    | .jsonError e => .error e
    | .success data => extractStep data
  match attempt with
  | .error _ => .error (.error proxyFailureMessage)
  | .ok s => .ok s

/-- generateSuggestions (proxy variant): any failure of the call or of
JSON.parse is swallowed and the empty array is returned. -/
def generateSuggestions (parse : String → Option Json) (o : FetchOutcome) :
    Except JSValue Json :=
  match callGeminiProxy o with
  | .error _ => .ok (Json.arr [])
  | .ok output =>
    match parse output with
    | none => .ok (Json.arr [])
    | some j => .ok j

end GeminiServiceProxy

namespace GeminiProxy

/-! Embedding of src/gemini-proxy/index.js (the Cloudflare worker relay). -/

/-- A worker HTTP response: status code and JSON body. -/
structure ProxyResponse where
  status : Nat
  body : Json

/-- Message thrown when the worker has no GEMINI_API_KEY. -/
def missingKeyMessage : String := "Missing GEMINI_API_KEY in environment"

/-- The worker fetch handler.  `reqJson` is the outcome of request.json()
(error = the thrown message), `envKey` the GEMINI_API_KEY variable, and
`upstream` the outcome of the forwarded fetch plus response.json().  The
catch turns any thrown message into a 500 JSON error body. -/
def fetchHandler (reqJson : Except String Json) (envKey : Option String)
    (upstream : Except String Json) : ProxyResponse :=
  match reqJson with
  | .error m => ⟨500, Json.obj [("error", Json.str m)]⟩
  | .ok _ =>
    if truthyStr envKey then
      match upstream with
      | .error m => ⟨500, Json.obj [("error", Json.str m)]⟩
      | .ok data =>
        let text :=
          match candidatesText data with
          | some v => if v.truthy then v else Json.str "No response"
          | none => Json.str "No response"
        ⟨200, Json.obj [("text", text)]⟩
    else ⟨500, Json.obj [("error", Json.str missingKeyMessage)]⟩

end GeminiProxy

/-- Whether an optionally-present JSON value is absent or a string: the
envelope discipline assumed by the Output Normalizer contract. -/
def strOrAbsent : Option Json → Bool
  | none => true
  | some (Json.str _) => true
  | some _ => false

/-- An envelope whose three candidate payload positions are each absent
or a string. -/
def goodEnvelope (data : Json) : Bool :=
  strOrAbsent (data.getProp "output") && strOrAbsent (data.getProp "text") &&
    strOrAbsent (candidatesText data)

/-- The first position holding a non-empty string, in list order. -/
def firstNonEmptyStr : List (Option Json) → Option String
  | [] => none
  | some (Json.str s) :: rest =>
    if s = "" then firstNonEmptyStr rest else some s
  | _ :: rest => firstNonEmptyStr rest

/-- The Output Normalizer contract stated by the spec, for comparison
with the implementations: the first non-empty match among the direct
output field, the direct text field, and the nested candidates text, in
that fixed priority order. -/
def normalizerSpecFirstMatch (data : Json) : Option String :=
  firstNonEmptyStr
    [data.getProp "output", data.getProp "text", candidatesText data]

/-- Whether an integer is a four-digit year. -/
def fourDigit (n : Int) : Bool := decide (1000 ≤ n) && decide (n ≤ 9999)

/-- The PaperRecord invariants of the spec on a parsed JSON element:
authors a non-empty array, year a four-digit integer, citationCount a
non-negative integer. -/
def paperOk (j : Json) : Bool :=
  (match j.getProp "authors" with
   | some (Json.arr xs) => !xs.isEmpty
   | _ => false) &&
  (match j.getProp "year" with
   | some (Json.num n) => fourDigit n
   | _ => false) &&
  (match j.getProp "citationCount" with
   | some (Json.num n) => decide (0 ≤ n)
   | _ => false)

/-- A stage-1 response with no feedback and non-blank text. -/
def stage1OkResponse : GenResponse :=
  { promptFeedback := none, text := some "raw paper data" }

/-- A paper object violating every PaperRecord invariant: empty authors,
a two-digit year, a negative citation count. -/
def badPaper : Json :=
  Json.obj [("id", Json.str "p1"), ("title", Json.str "t"),
    ("authors", Json.arr []), ("year", Json.num 12),
    ("abstract", Json.str "a"), ("citationCount", Json.num (-3)),
    ("tldr", Json.str "s")]

/-- An envelope carrying only the direct text field. -/
def textOnlyEnvelope : Json := Json.obj [("text", Json.str "hello")]

/-- JavaScript falsiness of an optionally-present JSON value. -/
def falsyOpt : Option Json → Bool
  | none => true
  | some v => !v.truthy

/-- A prompt feedback carrying a block reason and one blocked category. -/
def blockedPF : PromptFeedback :=
  { blockReason := some "SAFETY",
    safetyRatings := some [{ blocked := true, category := "HARM_X" }] }

/-- A stage-1 response blocked for safety reasons. -/
def blockedResponse : GenResponse :=
  { promptFeedback := some blockedPF, text := some "ignored" }

/-! Helper lemmas shared by several claim proofs. -/

/-- A stage-1 response that is not safety-blocked resolves to its trimmed
text (the sentinel when that is empty). -/
theorem getRawPaperData_not_blocked (r : GenResponse)
    (hb : PaperService.blockedFeedback r = none) :
    PaperService.getRawPaperData (.ok r) = .ok (jsTrim (r.text.getD "")) := by
  simp only [PaperService.getRawPaperData, hb]
  by_cases h : jsTrim (r.text.getD "") = "" <;> simp [h]

/-- The proxy-variant normalizer never returns the empty string. -/
theorem p1_extractStep_ok_ne (data : Json) (s : String)
    (h : PaperServiceProxy.extractStep data = .ok s) : s ≠ "" := by
  unfold PaperServiceProxy.extractStep at h
  split at h
  · split at h
    · exact absurd h (by simp)
    · next h0 => injection h with h1; exact h1 ▸ h0
  · exact absurd h (by simp)

/-- The proxy-variant callGeminiProxy never resolves with the empty string. -/
theorem p1_callGeminiProxy_ok_ne (o : FetchOutcome) (s : String)
    (h : PaperServiceProxy.callGeminiProxy o = .ok s) : s ≠ "" := by
  unfold PaperServiceProxy.callGeminiProxy at h
  rcases o with e | ⟨st, b⟩ | e | data <;> simp at h
  split at h
  · exact absurd h (by simp)
  · next s' hs' =>
      injection h with h1
      exact h1 ▸ p1_extractStep_ok_ne data s' hs'

/-- C1: if stage-1 retrieval normalizes to empty text without a safety
block, getRawPaperData returns the empty-string sentinel instead of
failing, formatPaperData on the blank sentinel returns the empty array
without a model call, and searchPapers resolves with the empty array
after exactly one model call (stage 2 is never invoked). -/
theorem C1_empty_retrieval_short_circuits
    (k : String) (hk : k ≠ "") (parse : String → Option Json)
    (r : GenResponse) (stage2 : Except JSValue GenResponse)
    (hb : PaperService.blockedFeedback r = none)
    (ht : jsTrim (r.text.getD "") = "") :
    PaperService.getRawPaperData (.ok r) = .ok "" ∧
    PaperService.formatPaperData parse stage2 "" = (.ok (Json.arr []), false) ∧
    PaperService.searchPapers (some k) parse (.ok r) stage2 =
      (.ok (Json.arr []), 1) := by
  have h1 : PaperService.getRawPaperData (.ok r) = .ok "" := by
    rw [getRawPaperData_not_blocked r hb, ht]
  refine ⟨h1, rfl, ?_⟩
  simp [PaperService.searchPapers, PaperService.getAi, hk, h1,
    PaperService.formatPaperData, jsTrim, trimChars]

/-- Witness for C1 at a concrete whitespace-only stage-1 response. -/
theorem C1_witness :
    PaperService.getRawPaperData
      (.ok { promptFeedback := none, text := some "   " }) = .ok "" ∧
    PaperService.formatPaperData (fun _ => none) (.ok stage1OkResponse) "" =
      (.ok (Json.arr []), false) ∧
    PaperService.searchPapers (some "k") (fun _ => none)
      (.ok { promptFeedback := none, text := some "   " })
      (.ok stage1OkResponse) = (.ok (Json.arr []), 1) :=
  C1_empty_retrieval_short_circuits "k" (by decide) (fun _ => none)
    { promptFeedback := none, text := some "   " } (.ok stage1OkResponse)
    rfl (by decide)

/-- C2: a stage-1 response carrying a truthy block reason makes
getRawPaperData throw the safety error built from that reason and the
blocked category list, and searchPapers rejects with that very error
after exactly one model call (stage 2 is never invoked, no fallback to
the empty sentinel). -/
theorem C2_safety_block_rejects
    (k : String) (hk : k ≠ "") (parse : String → Option Json)
    (r : GenResponse) (pf : PromptFeedback) (reason : String)
    (stage2 : Except JSValue GenResponse)
    (hpf : r.promptFeedback = some pf)
    (hreason : pf.blockReason = some reason) (hne : reason ≠ "") :
    PaperService.getRawPaperData (.ok r) =
      .error (.error (PaperService.safetyBlockMessage reason pf.safetyRatings)) ∧
    PaperService.searchPapers (some k) parse (.ok r) stage2 =
      (.error (.error (PaperService.safetyBlockMessage reason pf.safetyRatings)),
        1) := by
  have hbf : PaperService.blockedFeedback r = some pf := by
    simp [PaperService.blockedFeedback, hpf, truthyStr, hreason, hne]
  have h1 : PaperService.getRawPaperData (.ok r) =
      .error (.error (PaperService.safetyBlockMessage reason pf.safetyRatings)) := by
    simp [PaperService.getRawPaperData, hbf, hreason]
  refine ⟨h1, ?_⟩
  simp [PaperService.searchPapers, PaperService.getAi, hk, h1, rethrowOrWrap]

/-- Witness for C2 at a concrete blocked response with one blocked
category. -/
theorem C2_witness :
    PaperService.getRawPaperData (.ok blockedResponse) =
      .error (.error (PaperService.safetyBlockMessage "SAFETY"
        blockedPF.safetyRatings)) ∧
    PaperService.searchPapers (some "k") (fun _ => none)
      (.ok blockedResponse) (.ok stage1OkResponse) =
      (.error (.error (PaperService.safetyBlockMessage "SAFETY"
        blockedPF.safetyRatings)), 1) :=
  C2_safety_block_rejects "k" (by decide) (fun _ => none)
    blockedResponse blockedPF "SAFETY" (.ok stage1OkResponse) rfl rfl (by decide)

/-- The safety-block message is strictly longer than the stage-2 failure
message, so the two error kinds can never coincide. -/
theorem stage2_ne_safetyBlock (reason : String)
    (ratings : Option (List SafetyRating)) :
    PaperServiceProxy.stage2FailureMessage ≠
      PaperService.safetyBlockMessage reason ratings := by
  intro h
  have hlen := congrArg String.length h
  rw [PaperService.safetyBlockMessage] at hlen
  simp only [String.length_append] at hlen
  have hA : 60 ≤ ("Search failed: The query was blocked for safety reasons.\nReason: ").length := by decide
  have hS : PaperServiceProxy.stage2FailureMessage.length ≤ 59 := by decide
  omega

/-- C3 (amended): in the proxy variant, a stage-2 output that fails to
parse or parses to a non-array makes searchPapers reject with the
stage-2 structuring failure, distinct from the transport and safety
error kinds; in the direct-client variant the same holds for an
unparseable output. -/
theorem C3_structuring_failure
    (parse : String → Option Json) (s1 s2 : FetchOutcome)
    (raw out : String) (k : String) (hk : k ≠ "")
    (h1 : PaperServiceProxy.getRawPaperData s1 = .ok raw)
    (hraw : jsTrim raw ≠ "")
    (h2 : PaperServiceProxy.callGeminiProxy s2 = .ok out)
    (hbad : parse out = none ∨ ∃ j, parse out = some j ∧ j.isArr = false) :
    PaperServiceProxy.searchPapers parse s1 s2 =
      (.error (.error PaperServiceProxy.stage2FailureMessage), 2) ∧
    (∀ (dparse : String → Option Json) (ds1 : Except JSValue GenResponse)
        (draw t : String),
      PaperService.getRawPaperData ds1 = .ok draw → jsTrim draw ≠ "" →
      dparse (jsTrim t) = none →
      PaperService.searchPapers (some k) dparse ds1 (.ok ⟨none, some t⟩) =
        (.error (.error PaperService.formatFailureMessage), 2)) ∧
    PaperServiceProxy.stage2FailureMessage ≠
      PaperServiceProxy.proxyFailureMessage ∧
    PaperServiceProxy.stage2FailureMessage ≠
      PaperServiceProxy.stage1FailureMessage ∧
    (∀ reason ratings, PaperServiceProxy.stage2FailureMessage ≠
      PaperService.safetyBlockMessage reason ratings) := by
  refine ⟨?_, ?_, by decide, by decide, stage2_ne_safetyBlock⟩
  · have hfmt : PaperServiceProxy.formatPaperData parse s2 raw =
        (.error (.error PaperServiceProxy.stage2FailureMessage), true) := by
      rcases hbad with hnone | ⟨j, hj, hna⟩
      · simp [PaperServiceProxy.formatPaperData, hraw, h2, hnone]
      · cases j <;> simp_all [PaperServiceProxy.formatPaperData, hraw, h2,
          Json.isArr]
    simp [PaperServiceProxy.searchPapers, h1, hfmt, rethrowOrWrap]
  · intro dparse ds1 draw t hd1 hdraw hdp
    have hfmt : PaperService.formatPaperData dparse (.ok ⟨none, some t⟩) draw =
        (.error (.error PaperService.formatFailureMessage), true) := by
      simp [PaperService.formatPaperData, hdraw, hdp]
    simp [PaperService.searchPapers, PaperService.getAi, hk, hd1, hfmt,
      rethrowOrWrap]

/-- C3 is false as stated for the direct-client variant: a stage-2 output
that parses to a non-sequence (here the empty JSON object) is returned
as-is by searchPapers, which resolves instead of rejecting. -/
theorem C3_counterexample :
    PaperService.searchPapers (some "key") (fun _ => some (Json.obj []))
      (.ok stage1OkResponse)
      (.ok { promptFeedback := none, text := some "x" }) =
      (.ok (Json.obj []), 2) ∧ (Json.obj []).isArr = false :=
  ⟨rfl, rfl⟩

/-- Witness for C3 at a concrete non-array stage-2 parse. -/
theorem C3_witness :
    PaperServiceProxy.searchPapers (fun _ => some (Json.obj []))
      (FetchOutcome.success (Json.obj [("output", Json.str "papers")]))
      (FetchOutcome.success (Json.obj [("output", Json.str "papers")])) =
      (.error (.error PaperServiceProxy.stage2FailureMessage), 2) :=
  (C3_structuring_failure (fun _ => some (Json.obj []))
    (FetchOutcome.success (Json.obj [("output", Json.str "papers")]))
    (FetchOutcome.success (Json.obj [("output", Json.str "papers")]))
    "papers" "papers" "k" (by decide) rfl (by decide) rfl
    (Or.inr ⟨Json.obj [], rfl, rfl⟩)).1

/-- Over positions that are each absent or a string, the JavaScript
or-chain agrees with the first-non-empty-string selection. -/
theorem firstTruthy_of_strings (l : List (Option Json))
    (h : ∀ o ∈ l, strOrAbsent o = true) :
    firstTruthy l = (firstNonEmptyStr l).map Json.str := by
  induction l with
  | nil => rfl
  | cons o rest ih =>
    have hr := ih (fun x hx => h x (List.mem_cons_of_mem _ hx))
    have ho := h o (List.mem_cons_self _ _)
    cases o with
    | none => simpa [firstTruthy, firstNonEmptyStr] using hr
    | some v =>
      cases v with
      | str s =>
        by_cases hs : s = "" <;>
          simp [firstTruthy, firstNonEmptyStr, Json.truthy, hs, hr]
      | null => simp [strOrAbsent] at ho
      | bool b => simp [strOrAbsent] at ho
      | num n => simp [strOrAbsent] at ho
      | arr xs => simp [strOrAbsent] at ho
      | obj fs => simp [strOrAbsent] at ho

/-- On a well-shaped envelope the proxy normalizer expression selects the
first non-empty match of the spec contract, with the empty string as fallback. -/
theorem extractedOutput_of_good (data : Json) (h : goodEnvelope data = true) :
    PaperServiceProxy.extractedOutput data =
      Json.str ((normalizerSpecFirstMatch data).getD "") := by
  have hl : ∀ o ∈ [data.getProp "output", data.getProp "text",
      candidatesText data], strOrAbsent o = true := by
    simp only [goodEnvelope, Bool.and_eq_true] at h
    intro o ho
    simp only [List.mem_cons, List.not_mem_nil, or_false] at ho
    rcases ho with rfl | rfl | rfl
    · exact h.1.1
    · exact h.1.2
    · exact h.2
  rw [PaperServiceProxy.extractedOutput, firstTruthy_of_strings _ hl,
    normalizerSpecFirstMatch]
  cases firstNonEmptyStr [data.getProp "output", data.getProp "text",
    candidatesText data] <;> simp

/-- C4 (amended, for the paperService proxy variant): on an envelope
whose payload positions are strings when present, the extraction step
tries the shapes in the order output, text, nested candidates text,
returns the trimmed first non-empty match, and raises the empty-output
error exactly when no shape matches or the match trims to empty; a shape
mismatch alone never causes a throw. -/
theorem C4_normalizer_contract (data : Json) (h : goodEnvelope data = true) :
    (∀ s, normalizerSpecFirstMatch data = some s → jsTrim s ≠ "" →
      PaperServiceProxy.extractStep data = .ok (jsTrim s)) ∧
    (normalizerSpecFirstMatch data = none →
      PaperServiceProxy.extractStep data =
        .error (.error PaperServiceProxy.emptyResponseMessage)) ∧
    (∀ s, normalizerSpecFirstMatch data = some s → jsTrim s = "" →
      PaperServiceProxy.extractStep data =
        .error (.error PaperServiceProxy.emptyResponseMessage)) := by
  have he := extractedOutput_of_good data h
  refine ⟨?_, ?_, ?_⟩
  · intro s hs hne
    rw [PaperServiceProxy.extractStep, he, hs]
    simp [hne]
  · intro hnone
    rw [PaperServiceProxy.extractStep, he, hnone]
    simp [jsTrim, trimChars]
  · intro s hs hz
    rw [PaperServiceProxy.extractStep, he, hs]
    simp [hz]

/-- C4 is false as stated for the geminiService proxy variant: on an
envelope carrying only the direct text field, the claimed priority order
selects that text, yet this variant skips the text shape entirely and
raises its empty-output error. -/
theorem C4_counterexample :
    normalizerSpecFirstMatch textOnlyEnvelope = some "hello" ∧
    goodEnvelope textOnlyEnvelope = true ∧
    GeminiServiceProxy.extractStep textOnlyEnvelope =
      .error (.error GeminiServiceProxy.emptyResponseMessage) :=
  ⟨rfl, rfl, rfl⟩

/-- Witness for C4 at an envelope carrying a padded output field. -/
theorem C4_witness :
    PaperServiceProxy.extractStep (Json.obj [("output", Json.str " ok ")]) =
      .ok (jsTrim " ok ") :=
  (C4_normalizer_contract (Json.obj [("output", Json.str " ok ")]) rfl).1
    " ok " rfl (by decide)

/-- C5 (amended): searchPapers performs no client-side validation — it
resolves with exactly the JSON value produced by parsing the stage-2
output, so every element satisfies the PaperRecord invariants iff the
parsed model output already does. -/
theorem C5_no_validation
    (k : String) (hk : k ≠ "") (parse : String → Option Json)
    (s1 : Except JSValue GenResponse) (raw t : String) (j : Json)
    (h1 : PaperService.getRawPaperData s1 = .ok raw) (hraw : jsTrim raw ≠ "")
    (hp : parse (jsTrim t) = some j) :
    PaperService.searchPapers (some k) parse s1 (.ok ⟨none, some t⟩) =
      (.ok j, 2) := by
  have hfmt : PaperService.formatPaperData parse (.ok ⟨none, some t⟩) raw =
      (.ok j, true) := by
    simp [PaperService.formatPaperData, hraw, hp]
  simp [PaperService.searchPapers, PaperService.getAi, hk, h1, hfmt]

/-- C5 is false as stated: a stage-2 output parsing to an array whose
element has empty authors, a two-digit year and a negative citation
count is returned verbatim by a resolving searchPapers. -/
theorem C5_counterexample :
    PaperService.searchPapers (some "key") (fun _ => some (Json.arr [badPaper]))
      (.ok stage1OkResponse)
      (.ok { promptFeedback := none, text := some "x" }) =
      (.ok (Json.arr [badPaper]), 2) ∧ paperOk badPaper = false :=
  ⟨rfl, rfl⟩

/-- Witness for C5 at a concrete parse producing the empty array. -/
theorem C5_witness :
    PaperService.searchPapers (some "k") (fun _ => some (Json.arr []))
      (.ok stage1OkResponse) (.ok ⟨none, some "x"⟩) =
      (.ok (Json.arr []), 2) :=
  C5_no_validation "k" (by decide) (fun _ => some (Json.arr []))
    (.ok stage1OkResponse) "raw paper data" "x" (Json.arr []) rfl (by decide) rfl

/-- C6: generateSuggestions never rejects, in either variant; whenever
the client acquisition, the model call, the normalization or the JSON
parse fails, it resolves with the empty array. -/
theorem C6_suggestions_never_reject
    (env : Option String) (parse : String → Option Json)
    (resp : Except JSValue GenResponse) (o : FetchOutcome) :
    (∃ j, (GeminiService.generateSuggestions env parse resp).1 = .ok j) ∧
    (∀ e, GeminiService.transformAttempt env parse resp = .error e →
      (GeminiService.generateSuggestions env parse resp).1 =
        .ok (Json.arr [])) ∧
    (∃ j, GeminiServiceProxy.generateSuggestions parse o = .ok j) ∧
    (∀ e, GeminiServiceProxy.callGeminiProxy o = .error e →
      GeminiServiceProxy.generateSuggestions parse o = .ok (Json.arr [])) ∧
    (∀ out, GeminiServiceProxy.callGeminiProxy o = .ok out →
      parse out = none →
      GeminiServiceProxy.generateSuggestions parse o = .ok (Json.arr [])) := by
  refine ⟨?_, ?_, ?_, ?_, ?_⟩
  · cases hA : GeminiService.transformAttempt env parse resp <;>
      simp [GeminiService.generateSuggestions, hA]
  · intro e he
    simp [GeminiService.generateSuggestions, he]
  · cases hC : GeminiServiceProxy.callGeminiProxy o with
    | error e => simp [GeminiServiceProxy.generateSuggestions, hC]
    | ok out =>
      cases hp : parse out <;>
        simp [GeminiServiceProxy.generateSuggestions, hC, hp]
  · intro e he
    simp [GeminiServiceProxy.generateSuggestions, he]
  · intro out hout hp
    simp [GeminiServiceProxy.generateSuggestions, hout, hp]

/-- Witness for C6 at a failing model call in each variant. -/
theorem C6_witness :
    (GeminiService.generateSuggestions none (fun _ => none)
      (.error (.error "network down"))).1 = .ok (Json.arr []) ∧
    GeminiServiceProxy.generateSuggestions (fun _ => none)
      (FetchOutcome.netError (.error "network down")) = .ok (Json.arr []) :=
  ⟨(C6_suggestions_never_reject none (fun _ => none)
      (.error (.error "network down"))
      (FetchOutcome.netError (.error "network down"))).2.1
      (.error GeminiService.configErrorMessage) rfl,
   (C6_suggestions_never_reject none (fun _ => none)
      (.error (.error "network down"))
      (FetchOutcome.netError (.error "network down"))).2.2.2.1
      (.error GeminiServiceProxy.proxyFailureMessage) rfl⟩

/-- C7: whenever the shared transform body fails (transport, missing
text, or JSON parse), each of the three fatal transforms rejects with
its own transform-specific message, and the three messages are pairwise
distinct; none of them resolves. -/
theorem C7_fatal_transforms
    (env : Option String) (parse : String → Option Json)
    (resp : Except JSValue GenResponse)
    (hfail : ∃ e, GeminiService.transformAttempt env parse resp = .error e) :
    (GeminiService.generateComparison env parse resp).1 =
      .error (.error GeminiService.comparisonFailureMessage) ∧
    (GeminiService.generateKnowledgeGraph env parse resp).1 =
      .error (.error GeminiService.knowledgeGraphFailureMessage) ∧
    (GeminiService.generateSinglePaperAnalysis env parse resp).1 =
      .error (.error GeminiService.analysisFailureMessage) ∧
    GeminiService.comparisonFailureMessage ≠
      GeminiService.knowledgeGraphFailureMessage ∧
    GeminiService.comparisonFailureMessage ≠
      GeminiService.analysisFailureMessage ∧
    GeminiService.knowledgeGraphFailureMessage ≠
      GeminiService.analysisFailureMessage := by
  obtain ⟨e, he⟩ := hfail
  refine ⟨?_, ?_, ?_, by decide, by decide, by decide⟩ <;>
    simp [GeminiService.generateComparison, GeminiService.generateKnowledgeGraph,
      GeminiService.generateSinglePaperAnalysis, GeminiService.fatalTransform, he]

/-- Witness for C7 at a failing transport call. -/
theorem C7_witness :
    (GeminiService.generateComparison (some "k") (fun _ => none)
      (.error (.error "boom"))).1 =
      .error (.error GeminiService.comparisonFailureMessage) :=
  (C7_fatal_transforms (some "k") (fun _ => none) (.error (.error "boom"))
    ⟨.error "boom", rfl⟩).1

/-- C8 (amended): the error thrown BY either stage propagates through
the searchPapers catch with identity and message preserved, and a thrown
value that is not an Error instance is replaced by the single
unexpected-error kind. -/
theorem C8_orchestrator_propagation
    (k : String) (hk : k ≠ "") (parse : String → Option Json)
    (stage1 stage2 : Except JSValue GenResponse) :
    (∀ m, PaperService.getRawPaperData stage1 = .error (.error m) →
      (PaperService.searchPapers (some k) parse stage1 stage2).1 =
        .error (.error m)) ∧
    (∀ t, PaperService.getRawPaperData stage1 = .error (.other t) →
      (PaperService.searchPapers (some k) parse stage1 stage2).1 =
        .error (.error PaperService.unexpectedErrorMessage)) ∧
    (∀ raw m, PaperService.getRawPaperData stage1 = .ok raw →
      (PaperService.formatPaperData parse stage2 raw).1 = .error (.error m) →
      (PaperService.searchPapers (some k) parse stage1 stage2).1 =
        .error (.error m)) ∧
    (∀ raw t, PaperService.getRawPaperData stage1 = .ok raw →
      (PaperService.formatPaperData parse stage2 raw).1 = .error (.other t) →
      (PaperService.searchPapers (some k) parse stage1 stage2).1 =
        .error (.error PaperService.unexpectedErrorMessage)) := by
  refine ⟨?_, ?_, ?_, ?_⟩
  · intro m hm
    simp [PaperService.searchPapers, PaperService.getAi, hk, hm, rethrowOrWrap]
  · intro t ht
    simp [PaperService.searchPapers, PaperService.getAi, hk, ht, rethrowOrWrap]
  · intro raw m h1 h2
    rcases hf : PaperService.formatPaperData parse stage2 raw with ⟨res, inv⟩
    rw [hf] at h2
    simp only at h2
    subst h2
    simp [PaperService.searchPapers, PaperService.getAi, hk, h1, hf,
      rethrowOrWrap]
  · intro raw t h1 h2
    rcases hf : PaperService.formatPaperData parse stage2 raw with ⟨res, inv⟩
    rw [hf] at h2
    simp only at h2
    subst h2
    simp [PaperService.searchPapers, PaperService.getAi, hk, h1, hf,
      rethrowOrWrap]

/-- C8 is false as stated: a transport Error thrown inside stage 2 (the
generateContent call failing with message network timeout) reaches the
caller wrapped into the stage-2 failure message, so its message is not
preserved. -/
theorem C8_counterexample :
    PaperService.searchPapers (some "key") (fun _ => none)
      (.ok stage1OkResponse) (.error (.error "network timeout")) =
      (.error (.error PaperService.formatFailureMessage), 2) ∧
    PaperService.formatFailureMessage ≠ "network timeout" :=
  ⟨rfl, by decide⟩

/-- Witness for C8 at a stage-1 Error propagated verbatim. -/
theorem C8_witness :
    (PaperService.searchPapers (some "k") (fun _ => none)
      (.error (.error "boom")) (.ok stage1OkResponse)).1 =
      .error (.error "boom") :=
  (C8_orchestrator_propagation "k" (by decide) (fun _ => none)
    (.error (.error "boom")) (.ok stage1OkResponse)).1 "boom" rfl

/-- C9: on any upstream body whose nested candidates text is absent or
falsy, the worker relay still answers 200 with the body text set to the
No response placeholder; the text field of a successful relay response
is never the empty string; and consequently the empty-string stage-1
sentinel of the proxy pipeline is unreachable. -/
theorem C9_relay_no_response
    (req : Json) (k : String) (hk : k ≠ "") (data : Json)
    (hfalsy : falsyOpt (candidatesText data) = true) :
    GeminiProxy.fetchHandler (.ok req) (some k) (.ok data) =
      ⟨200, Json.obj [("text", Json.str "No response")]⟩ ∧
    (∀ upstream t,
      (GeminiProxy.fetchHandler (.ok req) (some k) (.ok upstream)).body.getProp
        "text" = some t → t ≠ Json.str "") ∧
    (∀ o : FetchOutcome, PaperServiceProxy.getRawPaperData o ≠ .ok "") := by
  have hkk : truthyStr (some k) = true := by simp [truthyStr, hk]
  refine ⟨?_, ?_, ?_⟩
  · rcases hc : candidatesText data with _ | v
    · simp [GeminiProxy.fetchHandler, hkk, hc]
    · have hv : v.truthy = false := by
        simpa [falsyOpt, hc] using hfalsy
      simp [GeminiProxy.fetchHandler, hkk, hc, hv]
  · intro upstream t ht
    rcases hc : candidatesText upstream with _ | v
    · simp [GeminiProxy.fetchHandler, hkk, hc, Json.getProp, List.find?] at ht
      subst ht
      simp
    · by_cases hv : v.truthy = true
      · simp [GeminiProxy.fetchHandler, hkk, hc, hv, Json.getProp,
          List.find?] at ht
        subst ht
        intro hcon
        rw [hcon] at hv
        simp [Json.truthy] at hv
      · simp [GeminiProxy.fetchHandler, hkk, hc, hv, Json.getProp,
          List.find?] at ht
        subst ht
        simp
  · intro o h
    rcases hC : PaperServiceProxy.callGeminiProxy o with e | out
    · simp only [PaperServiceProxy.getRawPaperData, hC] at h
      exact absurd h (by simp)
    · have hne := p1_callGeminiProxy_ok_ne o out hC
      simp only [PaperServiceProxy.getRawPaperData, hC, if_neg hne] at h
      injection h with h1
      exact hne h1

/-- Witness for C9 at an upstream body with no candidates at all. -/
theorem C9_witness :
    GeminiProxy.fetchHandler (.ok (Json.obj [])) (some "k")
      (.ok (Json.obj [])) =
      ⟨200, Json.obj [("text", Json.str "No response")]⟩ :=
  (C9_relay_no_response (Json.obj []) "k" (by decide) (Json.obj []) rfl).1

/-- C10: every direct-client operation acquires its client through a key
check first: with a falsy key both getters throw their configuration
error, searchPapers fails before any model call (count 0) and every
geminiService transform is left with its model call unmade; with a
non-empty key the error branch is unreachable and client construction
succeeds, carrying the key. -/
theorem C10_key_check_before_network
    (env : Option String) (k : String)
    (parse : String → Option Json)
    (resp stage1 stage2 : Except JSValue GenResponse) :
    (truthyStr env = false →
      PaperService.getAi env = .error (.error PaperService.apiKeyErrorMessage) ∧
      GeminiService.getClient env =
        .error (.error GeminiService.configErrorMessage) ∧
      PaperService.searchPapers env parse stage1 stage2 =
        (.error (.error PaperService.apiKeyErrorMessage), 0) ∧
      (GeminiService.generateSuggestions env parse resp).2 = false ∧
      (GeminiService.generateComparison env parse resp).2 = false ∧
      (GeminiService.generateKnowledgeGraph env parse resp).2 = false ∧
      (GeminiService.generateSinglePaperAnalysis env parse resp).2 = false) ∧
    (k ≠ "" →
      PaperService.getAi (some k) = .ok ⟨k⟩ ∧
      GeminiService.getClient (some k) = .ok ⟨k⟩) := by
  constructor
  · intro hf
    have hAi : PaperService.getAi env =
        .error (.error PaperService.apiKeyErrorMessage) := by
      cases env with
      | none => rfl
      | some s =>
        simp only [truthyStr, decide_eq_false_iff_not, not_not] at hf
        subst hf
        rfl
    have hCl : GeminiService.getClient env =
        .error (.error GeminiService.configErrorMessage) := by
      cases env with
      | none => rfl
      | some s =>
        simp only [truthyStr, decide_eq_false_iff_not, not_not] at hf
        subst hf
        rfl
    refine ⟨hAi, hCl, ?_, ?_, ?_, ?_, ?_⟩
    · simp [PaperService.searchPapers, hAi]
    · simp [GeminiService.generateSuggestions, hCl, Except.isOk, Except.toBool]
    · simp [GeminiService.generateComparison, GeminiService.fatalTransform,
        hCl, Except.isOk, Except.toBool]
    · simp [GeminiService.generateKnowledgeGraph, GeminiService.fatalTransform,
        hCl, Except.isOk, Except.toBool]
    · simp [GeminiService.generateSinglePaperAnalysis,
        GeminiService.fatalTransform, hCl, Except.isOk, Except.toBool]
  · intro hk
    exact ⟨by simp [PaperService.getAi, hk], by simp [GeminiService.getClient, hk]⟩

/-- Witness for C10 at the unset key and a concrete non-empty key. -/
theorem C10_witness :
    PaperService.getAi none =
      .error (.error PaperService.apiKeyErrorMessage) ∧
    PaperService.searchPapers none (fun _ => none)
      (.ok stage1OkResponse) (.ok stage1OkResponse) =
      (.error (.error PaperService.apiKeyErrorMessage), 0) ∧
    PaperService.getAi (some "k") = .ok ⟨"k"⟩ :=
  ⟨((C10_key_check_before_network none "k" (fun _ => none)
      (.ok stage1OkResponse) (.ok stage1OkResponse) (.ok stage1OkResponse)).1
      rfl).1,
   ((C10_key_check_before_network none "k" (fun _ => none)
      (.ok stage1OkResponse) (.ok stage1OkResponse) (.ok stage1OkResponse)).1
      rfl).2.2.1,
   ((C10_key_check_before_network none "k" (fun _ => none)
      (.ok stage1OkResponse) (.ok stage1OkResponse) (.ok stage1OkResponse)).2
      (by decide)).1⟩
